import Mathlib

/-
Verification development for the electoral-district situation map
(src/app.js).  The JavaScript source is shallowly embedded: DOM and
Leaflet side effects are represented as explicit state and emitted view
commands, and the pure computations (style lookup, panel model, bounds
indexing, selection state machine) are translated function by function.
-/

namespace ElectionMap

/-- JavaScript primitive values that occur as feature properties and DOM
input values: integers from the GeoJSON data and strings from select
elements.  Strict equality (triple equals) distinguishes the two kinds. -/
inductive JSVal where
  | num : Int → JSVal
  | str : String → JSVal
  deriving DecidableEq, Repr

/-- JavaScript object-key coercion, as in CANDIDATES_DATA[String(kucode)]
or OUTLOOK_COLORS[outlook]: property keys are strings, numbers are
stringified. -/
def jsKey : JSVal → String
  | JSVal.num n => toString n
  | JSVal.str s => s

/-- One entry of the candidates array of a candidate record
(name, party, status). -/
structure Candidate where
  name : String
  party : String
  status : String
  deriving DecidableEq, Repr

/-- One record of CANDIDATES_DATA (keyed by kucode).  The candidates
field is an Option because the JS property may be absent, which the code
tests with truthiness. -/
structure CandidateRecord where
  name : String
  outlook : JSVal
  candidates : Option (List Candidate)
  deriving DecidableEq, Repr

/-- A GeoJSON feature as the code reads it: properties ken (prefecture
id), ku (district local number), kucode (district code), and the polygon
vertices (latitude, longitude).  Coordinates are modelled as integers
since only their ordering is used by the bounds computation. -/
structure Feature where
  ken : JSVal
  ku : Int
  kucode : String
  geom : List (Int × Int)
  deriving DecidableEq, Repr

/-- The two static data sources: the feature collection (ELECTION_DATA)
and the candidate table (CANDIDATES_DATA, an object keyed by kucode). -/
structure AppData where
  features : List Feature
  candidates : List (String × CandidateRecord)
  deriving DecidableEq, Repr

/-- Object property lookup CANDIDATES_DATA[k]. -/
def lookupCandidate (t : List (String × CandidateRecord)) (k : String) :
    Option CandidateRecord :=
  (t.find? (fun p => p.1 == k)).map (fun p => p.2)

/-- The OUTLOOK_COLORS object: keys are the integers 5 down to 1
(stringified as JS property keys).  There is no key named competitive. -/
def OUTLOOK_COLORS_lookup : String → Option String
  | "5" => some "#2563eb"
  | "4" => some "#60a5fa"
  | "3" => some "#9333ea"
  | "2" => some "#f472b6"
  | "1" => some "#dc2626"
  | _ => none

/-- OUTLOOK_COLORS.competitive: the property does not exist, so the
access yields undefined. -/
def OUTLOOK_COLORS_competitive : Option String := none

/-- The OUTLOOK_LABELS object, keyed by the same integer keys. -/
def OUTLOOK_LABELS_lookup : String → Option String
  | "5" => some "安定"
  | "4" => some "優勢"
  | "3" => some "接戦"
  | "2" => some "劣勢"
  | "1" => some "厳しい"
  | _ => none

/-- The PREFECTURE_NAMES object (keys 1 to 47, stringified). -/
def PREFECTURE_NAMES : List (String × String) :=
  [("1", "北海道"), ("2", "青森"), ("3", "岩手"), ("4", "宮城"), ("5", "秋田"),
   ("6", "山形"), ("7", "福島"), ("8", "茨城"), ("9", "栃木"), ("10", "群馬"),
   ("11", "埼玉"), ("12", "千葉"), ("13", "東京"), ("14", "神奈川"), ("15", "新潟"),
   ("16", "富山"), ("17", "石川"), ("18", "福井"), ("19", "山梨"), ("20", "長野"),
   ("21", "岐阜"), ("22", "静岡"), ("23", "愛知"), ("24", "三重"), ("25", "滋賀"),
   ("26", "京都"), ("27", "大阪"), ("28", "兵庫"), ("29", "奈良"), ("30", "和歌山"),
   ("31", "鳥取"), ("32", "島根"), ("33", "岡山"), ("34", "広島"), ("35", "山口"),
   ("36", "徳島"), ("37", "香川"), ("38", "愛媛"), ("39", "高知"), ("40", "福岡"),
   ("41", "佐賀"), ("42", "長崎"), ("43", "熊本"), ("44", "大分"), ("45", "宮崎"),
   ("46", "鹿児島"), ("47", "沖縄")]

/-- PREFECTURE_NAMES[ken] with the fallback template for unknown ids. -/
def prefectureName (ken : JSVal) : String :=
  match (PREFECTURE_NAMES.find? (fun p => p.1 == jsKey ken)).map (fun p => p.2) with
  | some n => n
  | none => "県" ++ jsKey ken

/-- getDistrictName(ken, ku, kucode): the candidate record name when
present, otherwise prefecture name plus district number. -/
def getDistrictName (cands : List (String × CandidateRecord))
    (ken : JSVal) (ku : Int) (kucode : String) : String :=
  match lookupCandidate cands kucode with
  | some d => d.name
  | none => prefectureName ken ++ toString ku ++ "区"

/-- The style object produced by getFeatureStyle.  fillColor is an
Option because OUTLOOK_COLORS[outlook] || OUTLOOK_COLORS.competitive can
be undefined.  Opacities are stored as percentages (opacity 1 = 100,
fillOpacity 0.6 = 60). -/
structure PathStyle where
  fillColor : Option String
  weight : Nat
  opacityPct : Nat
  color : String
  fillOpacityPct : Nat
  deriving DecidableEq, Repr

/-- getFeatureStyle(feature): look up the candidate record by kucode,
take its outlook or the string competitive when missing, resolve the
fill color through OUTLOOK_COLORS with the (nonexistent) competitive
property as the alternative of the logical-or. -/
def getFeatureStyle (cands : List (String × CandidateRecord)) (f : Feature) :
    PathStyle :=
  let candidateData := lookupCandidate cands f.kucode
  let outlook : JSVal :=
    match candidateData with
    | some d => d.outlook
    | none => JSVal.str "competitive"
  let color : Option String :=
    match OUTLOOK_COLORS_lookup (jsKey outlook) with
    | some c => some c
    | none => OUTLOOK_COLORS_competitive
  { fillColor := color, weight := 1, opacityPct := 100,
    color := "#ffffff", fillOpacityPct := 60 }

/-- One displayed entry of the candidates list in the sidebar: either a
candidate card (the incumbent flag is the status equality test against
現職) or the no-information placeholder card. -/
inductive CandidateEntry where
  | card : String → String → String → Bool → CandidateEntry
  | placeholder : CandidateEntry
  deriving DecidableEq, Repr

/-- The candidates-list content generated by showDistrictInfo.  The JS
guard is (candidateData && candidateData.candidates): an absent record
or an absent candidates property takes the placeholder branch, while a
present candidates array (empty or not) is mapped to cards, because an
empty array is truthy in JavaScript. -/
def renderCandidatesList (candidateData : Option CandidateRecord) :
    List CandidateEntry :=
  match candidateData with
  | some d =>
    match d.candidates with
    | some cs =>
      cs.map (fun c => CandidateEntry.card c.name c.party c.status (c.status == "現職"))
    | none => [CandidateEntry.placeholder]
  | none => [CandidateEntry.placeholder]

/-- The display model written into the sidebar by showDistrictInfo:
district name, outlook badge text (undefined when OUTLOOK_LABELS has no
such key), badge class string, and the candidates-list entries. -/
structure PanelModel where
  districtName : String
  badgeText : Option String
  badgeClass : String
  entries : List CandidateEntry
  deriving DecidableEq, Repr

/-- The pure content part of showDistrictInfo(ken, ku, kucode); opening
the sidebar itself is part of the state machine below. -/
def showDistrictInfoModel (cands : List (String × CandidateRecord))
    (ken : JSVal) (ku : Int) (kucode : String) : PanelModel :=
  let candidateData := lookupCandidate cands kucode
  let outlook : JSVal :=
    match candidateData with
    | some d => d.outlook
    | none => JSVal.str "competitive"
  { districtName := getDistrictName cands ken ku kucode,
    badgeText := OUTLOOK_LABELS_lookup (jsKey outlook),
    badgeClass := "outlook-badge " ++ jsKey outlook,
    entries := renderCandidatesList candidateData }

/-- Outcome flags of the one-time initialization sequence. -/
structure InitOutcome where
  errorLogged : Bool
  candidatesLoaded : Bool
  boundsComputed : Bool
  layerAdded : Bool
  selectorsInitialized : Bool
  listenersAttached : Bool
  deriving DecidableEq, Repr

/-- loadElectionData: fetch candidates.json (fetchOk covers fetch
rejection, a non-ok response and JSON parse failure), then require the
global ELECTION_DATA, then compute bounds and add the GeoJSON layer.
Any throw lands in the catch block, which only logs to console.error. -/
def loadElectionDataOutcome (fetchOk : Bool) (electionDataDefined : Bool) :
    InitOutcome :=
  if fetchOk = false then
    { errorLogged := true, candidatesLoaded := false, boundsComputed := false,
      layerAdded := false, selectorsInitialized := false, listenersAttached := false }
  else if electionDataDefined = false then
    { errorLogged := true, candidatesLoaded := true, boundsComputed := false,
      layerAdded := false, selectorsInitialized := false, listenersAttached := false }
  else
    { errorLogged := false, candidatesLoaded := true, boundsComputed := true,
      layerAdded := true, selectorsInitialized := false, listenersAttached := false }

/-- The DOMContentLoaded handler: initMap, await loadElectionData, then
initSelectors and setupEventListeners.  Because loadElectionData catches
every error internally, the two wiring calls run in every case. -/
def initSequence (fetchOk : Bool) (electionDataDefined : Bool) : InitOutcome :=
  let o := loadElectionDataOutcome fetchOk electionDataDefined
  { o with selectorsInitialized := true, listenersAttached := true }

/-- A rectangular geographic viewport, as produced by L.latLngBounds
plus extend: minimum and maximum latitude and longitude. -/
structure LatLngBounds where
  minLat : Int
  maxLat : Int
  minLng : Int
  maxLng : Int
  deriving DecidableEq, Repr

/-- Extending bounds with one vertex.  The none case is the freshly
constructed (invalid) L.latLngBounds() before any extend. -/
def extendPoint (b : Option LatLngBounds) (p : Int × Int) : Option LatLngBounds :=
  match b with
  | none => some { minLat := p.1, maxLat := p.1, minLng := p.2, maxLng := p.2 }
  | some b =>
    some { minLat := min b.minLat p.1, maxLat := max b.maxLat p.1,
           minLng := min b.minLng p.2, maxLng := max b.maxLng p.2 }

/-- L.geoJSON(feature).getBounds(): the bounding box of the feature
geometry, invalid (none) when the geometry has no vertices. -/
def featureBounds (f : Feature) : Option LatLngBounds :=
  f.geom.foldl extendPoint none

/-- bounds.extend(otherBounds): extending with an invalid bounds is a
no-op, otherwise the union box is taken. -/
def extendBounds (acc fb : Option LatLngBounds) : Option LatLngBounds :=
  match fb with
  | none => acc
  | some b =>
    match acc with
    | none => some b
    | some a =>
      some { minLat := min a.minLat b.minLat, maxLat := max a.maxLat b.maxLat,
             minLng := min a.minLng b.minLng, maxLng := max a.maxLng b.maxLng }

/-- The per-group loop body of calculateBounds: start from
L.latLngBounds() and extend with each feature bounds in order. -/
def groupBounds (fs : List Feature) : Option LatLngBounds :=
  fs.foldl (fun acc f => extendBounds acc (featureBounds f)) none

/-- The distinct object keys in first-appearance order, as produced by
assigning prefectureFeatures[ken] or districtFeatures[kucode] per
feature and then walking Object.keys. -/
def dedupKeys (l : List String) : List String :=
  l.foldl (fun acc k => if acc.contains k then acc else acc ++ [k]) []

/-- calculateBounds(geojsonData): group features by prefecture key and
by district key, and compute the union bounds of each group.  Returns
the prefectureBounds and districtBounds tables. -/
def calculateBounds (features : List Feature) :
    List (String × Option LatLngBounds) × List (String × Option LatLngBounds) :=
  let prefKeys := dedupKeys (features.map (fun f => jsKey f.ken))
  let distKeys := dedupKeys (features.map (fun f => f.kucode))
  (prefKeys.map (fun k => (k, groupBounds (features.filter (fun f => jsKey f.ken == k)))),
   distKeys.map (fun k => (k, groupBounds (features.filter (fun f => f.kucode == k)))))

/-- Property lookup in a bounds table. -/
def lookupBounds (t : List (String × Option LatLngBounds)) (k : String) :
    Option (Option LatLngBounds) :=
  (t.find? (fun p => p.1 == k)).map (fun p => p.2)

/-- A vertex lies inside a bounds box. -/
def boundsContainPoint (b : LatLngBounds) (p : Int × Int) : Prop :=
  b.minLat ≤ p.1 ∧ p.1 ≤ b.maxLat ∧ b.minLng ≤ p.2 ∧ p.2 ≤ b.maxLng

instance (b : LatLngBounds) (p : Int × Int) : Decidable (boundsContainPoint b p) := by
  unfold boundsContainPoint
  exact inferInstance

/-- Box inclusion: every point of the first box lies in the second. -/
def boundsLE (a b : LatLngBounds) : Prop :=
  b.minLat ≤ a.minLat ∧ a.maxLat ≤ b.maxLat ∧ b.minLng ≤ a.minLng ∧ a.maxLng ≤ b.maxLng

/-- The per-layer style state tracked by the selection machinery: the
base style from getFeatureStyle (what resetStyle restores) or the
selected highlight (weight 3, opacity 1, white border, fillOpacity
0.85) applied by the click and dropdown handlers. -/
inductive LayerStyle where
  | base : LayerStyle
  | selectedHighlight : LayerStyle
  deriving DecidableEq, Repr

/-- The map viewport as the last viewport command issued to Leaflet:
the whole-country view setView(JAPAN_CENTER, JAPAN_ZOOM), a prefecture
fit (padding 50, maxZoom 10) keyed by prefecture key, or a district
layer fit (padding 50, maxZoom 12) keyed by layer index. -/
inductive Viewport where
  | home : Viewport
  | prefFit : String → Viewport
  | districtFit : Nat → Viewport
  deriving DecidableEq, Repr

/-- Observable commands sent to the map engine by one interaction. -/
inductive ViewCmd where
  | setHomeView : ViewCmd
  | fitPrefectureBounds : String → ViewCmd
  | fitLayerBounds : Nat → ViewCmd
  | bringToFront : Nat → ViewCmd
  deriving DecidableEq, Repr

/-- The mutable page state: the globals currentPrefecture and
selectedLayer, the per-layer styles (indexed like the feature list),
the viewport, sidebar and overlay visibility, the sidebar content, and
the two dropdowns.  Layers are identified with indices into
AppData.features. -/
structure AppState where
  currentPrefecture : Option JSVal
  selectedLayer : Option Nat
  styles : List LayerStyle
  viewport : Viewport
  sidebarOpen : Bool
  overlayVisible : Bool
  panel : Option PanelModel
  prefSelectValue : String
  districtOptions : List (String × String)
  districtDisabled : Bool
  deriving DecidableEq, Repr

/-- The page state right after initialization: whole-country view, no
zoomed prefecture, no selection, every layer at its base style, sidebar
closed.  The district selector starts empty and disabled (the initial
markup is not part of app.js; the dependent selector described by the
spec starts disabled until a prefecture is chosen). -/
def initState (data : AppData) : AppState :=
  { currentPrefecture := none,
    selectedLayer := none,
    styles := List.replicate data.features.length LayerStyle.base,
    viewport := Viewport.home,
    sidebarOpen := false,
    overlayVisible := false,
    panel := none,
    prefSelectValue := "",
    districtOptions := [],
    districtDisabled := true }

/-- Whether prefectureBounds has an entry for this key, which is the
case exactly when some feature carries that prefecture key. -/
def hasPrefectureBounds (data : AppData) (key : String) : Bool :=
  data.features.any (fun f => jsKey f.ken == key)

/-- State part of zoomToPrefecture(ken): when the bounds exist, fit the
viewport to them and record ken (the JSVal as passed, number from a
click, string from the dropdown) as the current prefecture. -/
def zoomToPrefectureState (data : AppData) (s : AppState) (ken : JSVal) : AppState :=
  if hasPrefectureBounds data (jsKey ken) then
    { s with viewport := Viewport.prefFit (jsKey ken),
             currentPrefecture := some ken }
  else s

/-- Commands emitted by zoomToPrefecture(ken). -/
def zoomToPrefectureCmds (data : AppData) (ken : JSVal) : List ViewCmd :=
  if hasPrefectureBounds data (jsKey ken) then
    [ViewCmd.fitPrefectureBounds (jsKey ken)]
  else []

/-- Resetting the style of the currently selected layer, as done by the
click handler, resetView and closeSidebar. -/
def clearSelectedStyle (sel : Option Nat) (styles : List LayerStyle) :
    List LayerStyle :=
  match sel with
  | some j => styles.set j LayerStyle.base
  | none => styles

/-- The intermediate state of a click, after the conditional prefecture
zoom and before the selection updates. -/
def clickBase (data : AppData) (s : AppState) (f : Feature) : AppState :=
  if s.currentPrefecture = some f.ken then s else zoomToPrefectureState data s f.ken

/-- State part of handleDistrictClick on layer i.  The guard
(selectedLayer && selectedLayer !== feature) compares the selected
layer object against the clicked feature object, which are never the
same object, so a present previous selection is always style-reset,
including a re-click of the already selected layer. -/
def handleDistrictClickState (data : AppData) (s : AppState) (i : Nat) : AppState :=
  match data.features[i]? with
  | none => s
  | some f =>
    let s1 := if s.currentPrefecture = some f.ken then s
              else zoomToPrefectureState data s f.ken
    { s1 with
      styles := (clearSelectedStyle s1.selectedLayer s1.styles).set i
        LayerStyle.selectedHighlight,
      selectedLayer := some i,
      sidebarOpen := true,
      overlayVisible := true,
      panel := some (showDistrictInfoModel data.candidates f.ken f.ku f.kucode) }

/-- Commands emitted by handleDistrictClick on layer i. -/
def handleDistrictClickCmds (data : AppData) (s : AppState) (i : Nat) :
    List ViewCmd :=
  match data.features[i]? with
  | none => []
  | some f =>
    (if s.currentPrefecture = some f.ken then []
     else zoomToPrefectureCmds data f.ken) ++ [ViewCmd.bringToFront i]

/-- The geojsonLayer.eachLayer scan of selectDistrictByCode: walk the
layers in order and keep the last one whose feature kucode strictly
equals the requested code. -/
def eachLayerFindGo (ku : String) : List Feature → Nat → Option Nat → Option Nat
  | [], _, acc => acc
  | f :: fs, i, acc =>
    eachLayerFindGo ku fs (i + 1) (if f.kucode == ku then some i else acc)

/-- The layer index selectDistrictByCode resolves a district code to. -/
def eachLayerFind (features : List Feature) (ku : String) : Option Nat :=
  eachLayerFindGo ku features 0 none

/-- The targetLayer and targetFeature pair resolved by
selectDistrictByCode, when the eachLayer scan found one. -/
def selectTarget (data : AppData) (kucode : String) : Option (Nat × Feature) :=
  match eachLayerFind data.features kucode with
  | none => none
  | some i =>
    match data.features[i]? with
    | none => none
    | some f => some (i, f)

/-- State part of selectDistrictByCode(kucode): when a layer is found,
reset the previous selection only if it is a different layer, highlight
and record the target, always fit the viewport to the district layer
bounds, and show the sidebar content. -/
def selectDistrictByCodeState (data : AppData) (s : AppState) (kucode : String) :
    AppState :=
  match selectTarget data kucode with
  | none => s
  | some (i, f) =>
    let styles1 :=
      match s.selectedLayer with
      | some j => if j = i then s.styles else s.styles.set j LayerStyle.base
      | none => s.styles
    { s with
      styles := styles1.set i LayerStyle.selectedHighlight,
      selectedLayer := some i,
      viewport := Viewport.districtFit i,
      sidebarOpen := true,
      overlayVisible := true,
      panel := some (showDistrictInfoModel data.candidates f.ken f.ku f.kucode) }

/-- Commands emitted by selectDistrictByCode(kucode). -/
def selectDistrictByCodeCmds (data : AppData) (kucode : String) : List ViewCmd :=
  match selectTarget data kucode with
  | none => []
  | some (i, _) => [ViewCmd.bringToFront i, ViewCmd.fitLayerBounds i]

/-- closeSidebar: hide sidebar and overlay and clear the selection
highlight and the selectedLayer global.  The sidebar content, the
viewport, currentPrefecture and the dropdowns are untouched. -/
def closeSidebarState (s : AppState) : AppState :=
  { s with
    sidebarOpen := false,
    overlayVisible := false,
    styles := clearSelectedStyle s.selectedLayer s.styles,
    selectedLayer := none }

/-- resetView: setView to the whole-country center and zoom, clear
currentPrefecture, clear the selection highlight, closeSidebar, then
empty and disable the district dropdown and clear the prefecture
dropdown value. -/
def resetViewState (s : AppState) : AppState :=
  let s1 := { s with viewport := Viewport.home, currentPrefecture := none }
  let s2 := { s1 with styles := clearSelectedStyle s1.selectedLayer s1.styles,
                      selectedLayer := none }
  let s3 := closeSidebarState s2
  { s3 with prefSelectValue := "", districtOptions := [], districtDisabled := true }

/-- One row of the district dropdown while it is being built. -/
structure DistrictOption where
  code : String
  name : String
  ku : Int
  deriving DecidableEq, Repr

/-- The Map used by updateDistrictSelect: keeps the first entry per
district code in encounter order. -/
def dedupByCode (l : List DistrictOption) : List DistrictOption :=
  l.foldl (fun acc d => if acc.any (fun x => x.code == d.code) then acc else acc ++ [d]) []

/-- Stable insertion used by the ascending sort on the district number. -/
def insertByKu (x : DistrictOption) : List DistrictOption → List DistrictOption
  | [] => [x]
  | y :: ys => if x.ku ≤ y.ku then x :: y :: ys else y :: insertByKu x ys

/-- The stable ascending sort corresponding to sort((a, b) => a.ku - b.ku). -/
def sortByKu : List DistrictOption → List DistrictOption
  | [] => []
  | x :: xs => insertByKu x (sortByKu xs)

/-- updateDistrictSelect(kenCode): collect the districts of the chosen
prefecture (matching String(feature.properties.ken) against the
dropdown value), dedup by code keeping the first, sort by district
number ascending, and emit (value, label) option rows. -/
def updateDistrictSelectOptions (data : AppData) (kenCode : String) :
    List (String × String) :=
  let opts := (data.features.filter (fun f => jsKey f.ken == kenCode)).map
    (fun f => { code := f.kucode,
                name := getDistrictName data.candidates f.ken f.ku f.kucode,
                ku := f.ku : DistrictOption })
  (sortByKu (dedupByCode opts)).map (fun d => (d.code, d.name))

/-- The prefecture dropdown change handler: an empty value resets the
view, otherwise zoom to the prefecture (passing the string value) and
repopulate and enable the district dropdown. -/
def prefSelectChangeState (data : AppData) (s : AppState) (value : String) :
    AppState :=
  if value = "" then resetViewState s
  else
    let s1 := zoomToPrefectureState data s (JSVal.str value)
    { s1 with prefSelectValue := value,
              districtOptions := updateDistrictSelectOptions data value,
              districtDisabled := false }

/-- The district dropdown change handler: an empty value does nothing,
otherwise select the district by code. -/
def districtSelectChangeState (data : AppData) (s : AppState) (value : String) :
    AppState :=
  if value = "" then s else selectDistrictByCodeState data s value

/-- The user interactions wired by initSelectors and
setupEventListeners that drive the selection state machine. -/
inductive Op where
  | click : Nat → Op
  | prefChange : String → Op
  | districtChange : String → Op
  | resetButton : Op
  | closeButton : Op
  | overlayClick : Op
  | keydown : String → Op
  deriving DecidableEq, Repr

/-- One synchronous interaction handler run. -/
def stepState (data : AppData) (s : AppState) : Op → AppState
  | Op.click i => handleDistrictClickState data s i
  | Op.prefChange v => prefSelectChangeState data s v
  | Op.districtChange v => districtSelectChangeState data s v
  | Op.resetButton => resetViewState s
  | Op.closeButton => closeSidebarState s
  | Op.overlayClick => closeSidebarState s
  | Op.keydown k => if k = "Escape" then closeSidebarState s else s

/-- Running a sequence of interactions. -/
def runOps (data : AppData) (s : AppState) : List Op → AppState
  | [] => s
  | op :: ops => runOps data (stepState data s op) ops

/-!  Concrete data used by counterexamples and witnesses.  -/

/-- A one-feature collection: the district 13001 of prefecture 13, with
no candidate record. -/
def sampleData13 : AppData :=
  { features := [{ ken := JSVal.num 13, ku := 1, kucode := "13001", geom := [(0, 0)] }],
    candidates := [] }

/-- A two-feature collection in prefecture 13 with distinct districts. -/
def sampleData2 : AppData :=
  { features := [{ ken := JSVal.num 13, ku := 1, kucode := "13001", geom := [(0, 0)] },
                 { ken := JSVal.num 13, ku := 2, kucode := "13002", geom := [(1, 1)] }],
    candidates := [] }

/-- A feature whose district code 99999 is absent from the candidate
table. -/
def featureUnknown : Feature :=
  { ken := JSVal.num 99, ku := 9, kucode := "99999", geom := [] }

/-- A candidate record whose candidates array is present but empty. -/
def emptyCandRecord : CandidateRecord :=
  { name := "テスト区", outlook := JSVal.num 3, candidates := some [] }

/-- The state of sampleData13 after clicking its only district: the
map is fitted to prefecture 13 and the district is selected. -/
def clickedState13 : AppState :=
  handleDistrictClickState sampleData13 (initState sampleData13) 0

/-- The core style invariant of the selection machinery: only the layer
recorded in selectedLayer can carry the selected highlight style. -/
def selectionStyleInv (s : AppState) : Prop :=
  ∀ j : Nat, s.styles[j]? = some LayerStyle.selectedHighlight → s.selectedLayer = some j

/-! ## General list lemmas -/

theorem set_getElem? {α : Type} (l : List α) (i j : Nat) (a : α) :
    (l.set i a)[j]? = if i = j ∧ i < l.length then some a else l[j]? := by
  induction l generalizing i j with
  | nil => simp
  | cons x xs ih =>
    cases i with
    | zero =>
      cases j with
      | zero => simp
      | succ j => simp
    | succ i =>
      cases j with
      | zero => simp
      | succ j =>
        simpa [Nat.succ_lt_succ_iff] using ih i j

theorem replicate_getElem? {α : Type} (n : Nat) (a : α) (j : Nat) :
    (List.replicate n a)[j]? = if j < n then some a else none := by
  induction n generalizing j with
  | zero => simp
  | succ n ih =>
    cases j with
    | zero => simp
    | succ j =>
      rw [List.replicate_succ, List.getElem?_cons_succ, ih j]
      simp [Nat.succ_lt_succ_iff]

theorem lt_of_getElem?_some {α : Type} {l : List α} {j : Nat} {a : α}
    (h : l[j]? = some a) : j < l.length := by
  by_contra hlt
  rw [List.getElem?_eq_none (Nat.le_of_not_lt hlt)] at h
  cases h

/-! ## Lemmas about the selection style updates -/

theorem clear_no_highlight (styles : List LayerStyle) (sel : Option Nat)
    (hinv : ∀ j : Nat, styles[j]? = some LayerStyle.selectedHighlight → sel = some j)
    (j : Nat) :
    (clearSelectedStyle sel styles)[j]? ≠ some LayerStyle.selectedHighlight := by
  intro h
  cases hsel : sel with
  | none =>
    rw [hsel] at h
    simp only [clearSelectedStyle] at h
    have := hinv j h
    rw [hsel] at this
    cases this
  | some p =>
    rw [hsel] at h
    simp only [clearSelectedStyle] at h
    rw [set_getElem?] at h
    by_cases hc : p = j ∧ p < styles.length
    · rw [if_pos hc] at h
      cases h
    · rw [if_neg hc] at h
      have hpj := hinv j h
      rw [hsel] at hpj
      have hpj' : p = j := by
        cases hpj
        rfl
      exact hc ⟨hpj', hpj' ▸ lt_of_getElem?_some h⟩

theorem highlight_after_select (mid : List LayerStyle) (i j : Nat)
    (h : (mid.set i LayerStyle.selectedHighlight)[j]?
          = some LayerStyle.selectedHighlight)
    (hmid : ∀ j : Nat, mid[j]? ≠ some LayerStyle.selectedHighlight) : j = i := by
  rw [set_getElem?] at h
  by_cases hc : i = j ∧ i < mid.length
  · exact hc.1.symm
  · rw [if_neg hc] at h
    exact absurd h (hmid j)

/-! ## Projection lemmas for the state machine -/

theorem zoomToPrefectureState_fields (data : AppData) (s : AppState) (ken : JSVal) :
    (zoomToPrefectureState data s ken).styles = s.styles
    ∧ (zoomToPrefectureState data s ken).selectedLayer = s.selectedLayer
    ∧ (zoomToPrefectureState data s ken).sidebarOpen = s.sidebarOpen
    ∧ (zoomToPrefectureState data s ken).overlayVisible = s.overlayVisible
    ∧ (zoomToPrefectureState data s ken).panel = s.panel
    ∧ (zoomToPrefectureState data s ken).prefSelectValue = s.prefSelectValue
    ∧ (zoomToPrefectureState data s ken).districtOptions = s.districtOptions
    ∧ (zoomToPrefectureState data s ken).districtDisabled = s.districtDisabled := by
  unfold zoomToPrefectureState
  split <;> exact ⟨rfl, rfl, rfl, rfl, rfl, rfl, rfl, rfl⟩

theorem handleDistrictClickState_of_none (data : AppData) (s : AppState) (i : Nat)
    (h : data.features[i]? = none) : handleDistrictClickState data s i = s := by
  unfold handleDistrictClickState
  rw [h]

theorem clickBase_styles (data : AppData) (s : AppState) (f : Feature) :
    (clickBase data s f).styles = s.styles := by
  unfold clickBase
  split
  · rfl
  · exact (zoomToPrefectureState_fields data s f.ken).1

theorem clickBase_selectedLayer (data : AppData) (s : AppState) (f : Feature) :
    (clickBase data s f).selectedLayer = s.selectedLayer := by
  unfold clickBase
  split
  · rfl
  · exact (zoomToPrefectureState_fields data s f.ken).2.1

theorem handleDistrictClickState_of_some (data : AppData) (s : AppState) (i : Nat)
    (f : Feature) (h : data.features[i]? = some f) :
    handleDistrictClickState data s i =
      { clickBase data s f with
        styles := (clearSelectedStyle (clickBase data s f).selectedLayer
          (clickBase data s f).styles).set i LayerStyle.selectedHighlight,
        selectedLayer := some i,
        sidebarOpen := true,
        overlayVisible := true,
        panel := some (showDistrictInfoModel data.candidates f.ken f.ku f.kucode) } := by
  unfold handleDistrictClickState clickBase
  rw [h]

theorem selectTarget_eq (data : AppData) (kucode : String) (i : Nat) (f : Feature)
    (h1 : eachLayerFind data.features kucode = some i)
    (h2 : data.features[i]? = some f) :
    selectTarget data kucode = some (i, f) := by
  unfold selectTarget
  rw [h1]
  show (match data.features[i]? with
        | none => none
        | some f => some (i, f)) = some (i, f)
  rw [h2]

theorem selectDistrictByCodeState_of_none (data : AppData) (s : AppState)
    (kucode : String) (h : selectTarget data kucode = none) :
    selectDistrictByCodeState data s kucode = s := by
  unfold selectDistrictByCodeState
  rw [h]

theorem selectDistrictByCodeState_of_some (data : AppData) (s : AppState)
    (kucode : String) (i : Nat) (f : Feature)
    (h : selectTarget data kucode = some (i, f)) :
    selectDistrictByCodeState data s kucode =
      { s with
        styles := (match s.selectedLayer with
                   | some j => if j = i then s.styles else s.styles.set j LayerStyle.base
                   | none => s.styles).set i LayerStyle.selectedHighlight,
        selectedLayer := some i,
        viewport := Viewport.districtFit i,
        sidebarOpen := true,
        overlayVisible := true,
        panel := some (showDistrictInfoModel data.candidates f.ken f.ku f.kucode) } := by
  unfold selectDistrictByCodeState
  rw [h]

/-! ## Invariant preservation -/

theorem clearSelectedStyle_length (sel : Option Nat) (styles : List LayerStyle) :
    (clearSelectedStyle sel styles).length = styles.length := by
  cases sel <;> simp [clearSelectedStyle]

theorem selectionStyleInv_initState (data : AppData) :
    selectionStyleInv (initState data) := by
  intro j h
  simp only [initState] at h
  rw [replicate_getElem?] at h
  by_cases hj : j < data.features.length
  · rw [if_pos hj] at h
    cases h
  · rw [if_neg hj] at h
    cases h

theorem selectionStyleInv_click (data : AppData) (s : AppState) (i : Nat)
    (hs : selectionStyleInv s) :
    selectionStyleInv (handleDistrictClickState data s i) := by
  cases hfi : data.features[i]? with
  | none =>
    rw [handleDistrictClickState_of_none data s i hfi]
    exact hs
  | some f =>
    rw [handleDistrictClickState_of_some data s i f hfi]
    intro j hj
    show some i = some j
    have hj' : ((clearSelectedStyle s.selectedLayer s.styles).set i
        LayerStyle.selectedHighlight)[j]? = some LayerStyle.selectedHighlight := by
      rw [← clickBase_styles data s f, ← clickBase_selectedLayer data s f]
      exact hj
    have := highlight_after_select (clearSelectedStyle s.selectedLayer s.styles) i j hj'
      (clear_no_highlight s.styles s.selectedLayer hs)
    rw [this]

theorem selectionStyleInv_selectByCode (data : AppData) (s : AppState) (kucode : String)
    (hs : selectionStyleInv s) :
    selectionStyleInv (selectDistrictByCodeState data s kucode) := by
  cases hst : selectTarget data kucode with
  | none =>
    rw [selectDistrictByCodeState_of_none data s kucode hst]
    exact hs
  | some t =>
    obtain ⟨i, f⟩ := t
    rw [selectDistrictByCodeState_of_some data s kucode i f hst]
    intro j hj
    show some i = some j
    rw [set_getElem?] at hj
    by_cases hc : i = j ∧ i < (match s.selectedLayer with
        | some j => if j = i then s.styles else s.styles.set j LayerStyle.base
        | none => s.styles).length
    · rw [hc.1]
    · rw [if_neg hc] at hj
      cases hsel : s.selectedLayer with
      | none =>
        rw [hsel] at hj
        have := hs j hj
        rw [hsel] at this
        cases this
      | some p =>
        rw [hsel] at hj
        have hj2 : (if p = i then s.styles else s.styles.set p LayerStyle.base)[j]?
            = some LayerStyle.selectedHighlight := hj
        by_cases hpi : p = i
        · rw [if_pos hpi] at hj2
          have := hs j hj2
          rw [hsel] at this
          injection this with hpj
          rw [← hpj, hpi]
        · rw [if_neg hpi] at hj2
          exfalso
          have hv : ∀ j : Nat, s.styles[j]? = some LayerStyle.selectedHighlight →
              some p = some j := by
            intro j h
            rw [← hsel]
            exact hs j h
          exact clear_no_highlight s.styles (some p) hv j hj2

theorem selectionStyleInv_close (s : AppState) (hs : selectionStyleInv s) :
    selectionStyleInv (closeSidebarState s) := by
  intro j hj
  exact absurd hj (clear_no_highlight s.styles s.selectedLayer hs j)

theorem selectionStyleInv_reset (s : AppState) (hs : selectionStyleInv s) :
    selectionStyleInv (resetViewState s) := by
  intro j hj
  exact absurd hj (clear_no_highlight s.styles s.selectedLayer hs j)

theorem selectionStyleInv_prefChange (data : AppData) (s : AppState) (v : String)
    (hs : selectionStyleInv s) :
    selectionStyleInv (prefSelectChangeState data s v) := by
  unfold prefSelectChangeState
  split
  · exact selectionStyleInv_reset s hs
  · intro j hj
    have hj2 : (zoomToPrefectureState data s (JSVal.str v)).styles[j]?
        = some LayerStyle.selectedHighlight := hj
    rw [(zoomToPrefectureState_fields data s (JSVal.str v)).1] at hj2
    show (zoomToPrefectureState data s (JSVal.str v)).selectedLayer = some j
    rw [(zoomToPrefectureState_fields data s (JSVal.str v)).2.1]
    exact hs j hj2

theorem selectionStyleInv_step (data : AppData) (s : AppState) (op : Op)
    (hs : selectionStyleInv s) :
    selectionStyleInv (stepState data s op) := by
  cases op with
  | click i => exact selectionStyleInv_click data s i hs
  | prefChange v => exact selectionStyleInv_prefChange data s v hs
  | districtChange v =>
    show selectionStyleInv (districtSelectChangeState data s v)
    unfold districtSelectChangeState
    split
    · exact hs
    · exact selectionStyleInv_selectByCode data s v hs
  | resetButton => exact selectionStyleInv_reset s hs
  | closeButton => exact selectionStyleInv_close s hs
  | overlayClick => exact selectionStyleInv_close s hs
  | keydown k =>
    show selectionStyleInv (if k = "Escape" then closeSidebarState s else s)
    split
    · exact selectionStyleInv_close s hs
    · exact hs

theorem selectionStyleInv_runOps (data : AppData) (ops : List Op) (s : AppState)
    (hs : selectionStyleInv s) :
    selectionStyleInv (runOps data s ops) := by
  induction ops generalizing s with
  | nil => exact hs
  | cons op ops ih => exact ih _ (selectionStyleInv_step data s op hs)

theorem stepState_styles_length (data : AppData) (s : AppState) (op : Op) :
    (stepState data s op).styles.length = s.styles.length := by
  cases op with
  | click i =>
    cases hfi : data.features[i]? with
    | none => rw [show stepState data s (Op.click i) = handleDistrictClickState data s i from rfl,
                  handleDistrictClickState_of_none data s i hfi]
    | some f =>
      rw [show stepState data s (Op.click i) = handleDistrictClickState data s i from rfl,
          handleDistrictClickState_of_some data s i f hfi]
      show ((clearSelectedStyle (clickBase data s f).selectedLayer
        (clickBase data s f).styles).set i LayerStyle.selectedHighlight).length
          = s.styles.length
      rw [List.length_set, clearSelectedStyle_length, clickBase_styles]
  | prefChange v =>
    show (prefSelectChangeState data s v).styles.length = s.styles.length
    unfold prefSelectChangeState
    split
    · show (clearSelectedStyle s.selectedLayer s.styles).length = s.styles.length
      exact clearSelectedStyle_length _ _
    · show (zoomToPrefectureState data s (JSVal.str v)).styles.length = s.styles.length
      rw [(zoomToPrefectureState_fields data s (JSVal.str v)).1]
  | districtChange v =>
    show (districtSelectChangeState data s v).styles.length = s.styles.length
    unfold districtSelectChangeState
    split
    · rfl
    · cases hst : selectTarget data v with
      | none => rw [selectDistrictByCodeState_of_none data s v hst]
      | some t =>
        obtain ⟨i, f⟩ := t
        rw [selectDistrictByCodeState_of_some data s v i f hst]
        show ((match s.selectedLayer with
               | some j => if j = i then s.styles else s.styles.set j LayerStyle.base
               | none => s.styles).set i LayerStyle.selectedHighlight).length
            = s.styles.length
        rw [List.length_set]
        cases s.selectedLayer with
        | none => rfl
        | some p =>
          show (if p = i then s.styles else s.styles.set p LayerStyle.base).length
              = s.styles.length
          split
          · rfl
          · exact List.length_set s.styles p LayerStyle.base ▸ rfl
  | resetButton =>
    show (clearSelectedStyle s.selectedLayer s.styles).length = s.styles.length
    exact clearSelectedStyle_length _ _
  | closeButton =>
    show (clearSelectedStyle s.selectedLayer s.styles).length = s.styles.length
    exact clearSelectedStyle_length _ _
  | overlayClick =>
    show (clearSelectedStyle s.selectedLayer s.styles).length = s.styles.length
    exact clearSelectedStyle_length _ _
  | keydown k =>
    show (if k = "Escape" then closeSidebarState s else s).styles.length = s.styles.length
    split
    · exact clearSelectedStyle_length _ _
    · rfl

theorem runOps_styles_length (data : AppData) (ops : List Op) (s : AppState) :
    (runOps data s ops).styles.length = s.styles.length := by
  induction ops generalizing s with
  | nil => rfl
  | cons op ops ih => rw [show runOps data s (op :: ops) = runOps data (stepState data s op) ops from rfl, ih, stepState_styles_length]

/-! ## C1 -/

/-- C1: the claim says resolving the outlook of a district code absent
from the candidate table returns the default competitive level 3 with
its purple color and label.  The code instead computes the fallback
OUTLOOK_COLORS[outlook] || OUTLOOK_COLORS.competitive with outlook set
to the string competitive, and neither key exists in the integer-keyed
tables: for the absent code 99999 the fill color and the badge label
are both undefined (none), while the level 3 entries #9333ea and 接戦
sit unused in the tables.  The lookup itself is total and cannot
throw. -/
theorem unknown_district_fallback_color_missing :
    lookupCandidate ([] : List (String × CandidateRecord)) "99999" = none
    ∧ (getFeatureStyle [] featureUnknown).fillColor = none
    ∧ (showDistrictInfoModel [] (JSVal.num 99) 9 "99999").badgeText = none
    ∧ OUTLOOK_COLORS_lookup "3" = some "#9333ea"
    ∧ OUTLOOK_LABELS_lookup "3" = some "接戦" :=
  ⟨rfl, rfl, rfl, rfl, rfl⟩

/-! ## C2 -/

/-- C2 counterexample: the claim says a district whose candidate list
is empty renders exactly one no-information placeholder entry.  For a
present record whose candidates array is empty, the guard
(candidateData && candidateData.candidates) is truthy (an empty array
is truthy), so the code maps over the empty array and produces zero
entries, not the placeholder. -/
theorem empty_candidate_list_yields_no_entries :
    (showDistrictInfoModel [("00001", emptyCandRecord)] (JSVal.num 1) 1 "00001").entries
        = []
    ∧ (showDistrictInfoModel [("00001", emptyCandRecord)] (JSVal.num 1) 1 "00001").entries
        ≠ [CandidateEntry.placeholder] := by
  exact ⟨rfl, by decide⟩

/-- C2 amended: when the candidate record is missing, or present
without a candidates property, the panel rendering produces exactly one
no-information placeholder entry; a present record with an empty
candidates array instead produces an empty entry list.  In every case
the rendering is a total function and yields a renderable model. -/
theorem missing_record_single_placeholder
    (cands : List (String × CandidateRecord)) (ken : JSVal) (ku : Int)
    (kucode : String)
    (h : lookupCandidate cands kucode = none
       ∨ ∃ d, lookupCandidate cands kucode = some d ∧ d.candidates = none) :
    (showDistrictInfoModel cands ken ku kucode).entries = [CandidateEntry.placeholder] := by
  rcases h with h | ⟨d, hd, hc⟩
  · simp [showDistrictInfoModel, renderCandidatesList, h]
  · simp [showDistrictInfoModel, renderCandidatesList, hd, hc]

/-- Witness for the amended C2 theorem at a concrete missing record. -/
theorem missing_record_single_placeholder_witness :
    (showDistrictInfoModel [] (JSVal.num 13) 1 "13001").entries
      = [CandidateEntry.placeholder] :=
  missing_record_single_placeholder [] (JSVal.num 13) 1 "13001" (Or.inl rfl)

/-! ## C3 -/

/-- C3 counterexample: the claim says a failed data load aborts
initialization so that no interaction wiring is applied.  In the code
loadElectionData catches every error and only logs it, after which the
DOMContentLoaded handler still calls initSelectors and
setupEventListeners: with the candidates fetch failing, the error is
logged and yet both wiring steps run. -/
theorem load_failure_listeners_still_attached :
    (initSequence false true).errorLogged = true
    ∧ (initSequence false true).selectorsInitialized = true
    ∧ (initSequence false true).listenersAttached = true := by
  decide

/-- C3 amended: when either external source fails, the error is
reported (console.error) and the data-dependent setup inside
loadElectionData is skipped (no bounds computed, no layer added), but
initialization is not aborted: selector initialization and event
listener wiring still run, leaving a partially wired page. -/
theorem load_failure_reported_but_init_continues
    (fetchOk electionDataDefined : Bool)
    (h : fetchOk = false ∨ electionDataDefined = false) :
    (initSequence fetchOk electionDataDefined).errorLogged = true
    ∧ (initSequence fetchOk electionDataDefined).boundsComputed = false
    ∧ (initSequence fetchOk electionDataDefined).layerAdded = false
    ∧ (initSequence fetchOk electionDataDefined).selectorsInitialized = true
    ∧ (initSequence fetchOk electionDataDefined).listenersAttached = true := by
  rcases h with h | h
  · subst h
    cases electionDataDefined <;> decide
  · subst h
    cases fetchOk <;> decide

/-- Witness for the amended C3 theorem at a failing fetch. -/
theorem load_failure_reported_but_init_continues_witness :
    (initSequence false true).errorLogged = true
    ∧ (initSequence false true).boundsComputed = false
    ∧ (initSequence false true).layerAdded = false
    ∧ (initSequence false true).selectorsInitialized = true
    ∧ (initSequence false true).listenersAttached = true :=
  load_failure_reported_but_init_continues false true (Or.inl rfl)

/-! ## C5 -/

/-- C5: the claim (and the comment above the zoom guard in the click
handler) says that selecting a district of the already zoomed
prefecture never re-triggers the prefecture fit-bounds.  After zooming
prefecture 13 through the dropdown, currentPrefecture holds the string
"13" while the clicked feature carries the number 13, and the strict
comparison currentPrefecture !== ken treats them as different: the
click emits fitBounds on the prefecture bounds again even though the
viewport is already fitted to exactly those bounds. -/
theorem dropdown_zoom_then_click_refits_prefecture :
    (stepState sampleData13 (initState sampleData13) (Op.prefChange "13")).viewport
        = Viewport.prefFit "13"
    ∧ (stepState sampleData13 (initState sampleData13) (Op.prefChange "13")).currentPrefecture
        = some (JSVal.str "13")
    ∧ (sampleData13.features[0]?).map Feature.ken = some (JSVal.num 13)
    ∧ handleDistrictClickCmds sampleData13
        (stepState sampleData13 (initState sampleData13) (Op.prefChange "13")) 0
        = [ViewCmd.fitPrefectureBounds "13", ViewCmd.bringToFront 0] := by
  refine ⟨rfl, rfl, rfl, ?_⟩
  decide

/-! ## C4 -/

/-- C4 counterexample: the claim says map click and dropdown choice of
the same district end in the same selection and zoom state, differing
only in whether the map was already centered.  Start from a state in
which the map is already fitted to prefecture 13 and district 13001 is
selected: re-selecting 13001 by click keeps the prefecture fit, while
the dropdown path always issues a district fit (padding 50, maxZoom
12), so the two end viewports differ. -/
theorem click_vs_dropdown_viewport_differs :
    clickedState13.viewport = Viewport.prefFit "13"
    ∧ (handleDistrictClickState sampleData13 clickedState13 0).viewport
        ≠ (selectDistrictByCodeState sampleData13 clickedState13 "13001").viewport := by
  constructor
  · rfl
  · decide

/-! ## C10 -/

/-- C10: every dismissal route of the side panel (close button, overlay
click, Escape key) runs closeSidebar, which hides the sidebar and
overlay and clears the selected district highlight and the
selectedLayer global, while the zoomed prefecture, the viewport and
both dropdowns are left unchanged. -/
theorem sidebar_dismissal_clears_selection_frame (data : AppData) (s : AppState) :
    stepState data s Op.closeButton = closeSidebarState s
    ∧ stepState data s Op.overlayClick = closeSidebarState s
    ∧ stepState data s (Op.keydown "Escape") = closeSidebarState s
    ∧ (closeSidebarState s).sidebarOpen = false
    ∧ (closeSidebarState s).overlayVisible = false
    ∧ (closeSidebarState s).selectedLayer = none
    ∧ (closeSidebarState s).styles
        = (match s.selectedLayer with
           | some j => s.styles.set j LayerStyle.base
           | none => s.styles)
    ∧ (closeSidebarState s).currentPrefecture = s.currentPrefecture
    ∧ (closeSidebarState s).viewport = s.viewport
    ∧ (closeSidebarState s).prefSelectValue = s.prefSelectValue
    ∧ (closeSidebarState s).districtOptions = s.districtOptions
    ∧ (closeSidebarState s).districtDisabled = s.districtDisabled := by
  refine ⟨rfl, rfl, ?_, rfl, rfl, rfl, rfl, rfl, rfl, rfl, rfl, rfl⟩
  simp [stepState]

/-- C4 amended: for a district resolvable by both routes (clicking its
layer and choosing its code in the dropdown), the two handlers produce
the same selected layer, the same per-layer styles, the same panel
content and the same sidebar visibility; they are not equivalent on the
viewport and zoom bookkeeping (see the counterexample theorem): the
dropdown path always fits the district layer bounds and leaves
currentPrefecture alone, while the click path conditionally fits the
prefecture bounds and updates currentPrefecture. -/
theorem click_dropdown_same_highlight_and_panel (data : AppData) (s : AppState)
    (i : Nat) (f : Feature) (kucode : String)
    (h1 : eachLayerFind data.features kucode = some i)
    (h2 : data.features[i]? = some f) :
    (handleDistrictClickState data s i).selectedLayer
        = (selectDistrictByCodeState data s kucode).selectedLayer
    ∧ (handleDistrictClickState data s i).styles
        = (selectDistrictByCodeState data s kucode).styles
    ∧ (handleDistrictClickState data s i).panel
        = (selectDistrictByCodeState data s kucode).panel
    ∧ (handleDistrictClickState data s i).sidebarOpen
        = (selectDistrictByCodeState data s kucode).sidebarOpen
    ∧ (handleDistrictClickState data s i).overlayVisible
        = (selectDistrictByCodeState data s kucode).overlayVisible := by
  have hst := selectTarget_eq data kucode i f h1 h2
  rw [handleDistrictClickState_of_some data s i f h2,
      selectDistrictByCodeState_of_some data s kucode i f hst]
  refine ⟨rfl, ?_, rfl, rfl, rfl⟩
  show (clearSelectedStyle (clickBase data s f).selectedLayer
      (clickBase data s f).styles).set i LayerStyle.selectedHighlight
    = (match s.selectedLayer with
       | some j => if j = i then s.styles else s.styles.set j LayerStyle.base
       | none => s.styles).set i LayerStyle.selectedHighlight
  rw [clickBase_styles, clickBase_selectedLayer]
  cases hsel : s.selectedLayer with
  | none => rfl
  | some p =>
    by_cases hpi : p = i
    · subst hpi
      show (s.styles.set p LayerStyle.base).set p LayerStyle.selectedHighlight
          = (if p = p then s.styles else s.styles.set p LayerStyle.base).set p
            LayerStyle.selectedHighlight
      rw [if_pos rfl, List.set_set]
    · show (s.styles.set p LayerStyle.base).set i LayerStyle.selectedHighlight
          = (if p = i then s.styles else s.styles.set p LayerStyle.base).set i
            LayerStyle.selectedHighlight
      rw [if_neg hpi]

/-- Witness for the amended C4 theorem on the concrete one-district
collection. -/
theorem click_dropdown_same_highlight_and_panel_witness :
    (handleDistrictClickState sampleData13 (initState sampleData13) 0).selectedLayer
        = (selectDistrictByCodeState sampleData13 (initState sampleData13) "13001").selectedLayer
    ∧ (handleDistrictClickState sampleData13 (initState sampleData13) 0).styles
        = (selectDistrictByCodeState sampleData13 (initState sampleData13) "13001").styles
    ∧ (handleDistrictClickState sampleData13 (initState sampleData13) 0).panel
        = (selectDistrictByCodeState sampleData13 (initState sampleData13) "13001").panel
    ∧ (handleDistrictClickState sampleData13 (initState sampleData13) 0).sidebarOpen
        = (selectDistrictByCodeState sampleData13 (initState sampleData13) "13001").sidebarOpen
    ∧ (handleDistrictClickState sampleData13 (initState sampleData13) 0).overlayVisible
        = (selectDistrictByCodeState sampleData13 (initState sampleData13) "13001").overlayVisible :=
  click_dropdown_same_highlight_and_panel sampleData13 (initState sampleData13) 0
    { ken := JSVal.num 13, ku := 1, kucode := "13001", geom := [(0, 0)] } "13001"
    (by decide) (by decide)

/-! ## C7 -/

theorem clickBase_stable (data : AppData) (s s2 : AppState) (f : Feature)
    (h : s2.currentPrefecture = (clickBase data s f).currentPrefecture) :
    clickBase data s2 f = s2 := by
  unfold clickBase at h ⊢
  by_cases h1 : s.currentPrefecture = some f.ken
  · rw [if_pos h1] at h
    rw [if_pos (h.trans h1)]
  · rw [if_neg h1] at h
    by_cases h2 : hasPrefectureBounds data (jsKey f.ken)
    · have h3 : s2.currentPrefecture = some f.ken := by
        rw [h]
        unfold zoomToPrefectureState
        rw [if_pos h2]
      rw [if_pos h3]
    · have hz : zoomToPrefectureState data s f.ken = s := by
        unfold zoomToPrefectureState
        rw [if_neg h2]
      rw [hz] at h
      by_cases h3 : s2.currentPrefecture = some f.ken
      · rw [if_pos h3]
      · rw [if_neg h3]
        unfold zoomToPrefectureState
        rw [if_neg h2]

/-- C7: selecting the same district twice in a row, by click or by
dropdown, ends in exactly the state of selecting it once: the handlers
are idempotent on the page state.  (The second run still re-issues the
highlight and bringToFront, which the claim allows.) -/
theorem select_twice_idempotent (data : AppData) (s : AppState) (i : Nat)
    (kucode : String) :
    handleDistrictClickState data (handleDistrictClickState data s i) i
      = handleDistrictClickState data s i
    ∧ selectDistrictByCodeState data (selectDistrictByCodeState data s kucode) kucode
      = selectDistrictByCodeState data s kucode := by
  constructor
  · cases hfi : data.features[i]? with
    | none =>
      rw [handleDistrictClickState_of_none data s i hfi,
          handleDistrictClickState_of_none data s i hfi]
    | some f =>
      have hmain : ∀ s2 : AppState,
          s2.currentPrefecture = (clickBase data s f).currentPrefecture →
          s2.selectedLayer = some i →
          s2.styles = (clearSelectedStyle (clickBase data s f).selectedLayer
            (clickBase data s f).styles).set i LayerStyle.selectedHighlight →
          s2.sidebarOpen = true →
          s2.overlayVisible = true →
          s2.panel = some (showDistrictInfoModel data.candidates f.ken f.ku f.kucode) →
          handleDistrictClickState data s2 i = s2 := by
        intro s2 hcp hsel hsty hsb hov hpn
        rw [handleDistrictClickState_of_some data s2 i f hfi,
            clickBase_stable data s s2 f hcp]
        obtain ⟨cp2, sel2, sty2, vp2, sb2, ov2, pn2, pv2, do2, dd2⟩ := s2
        simp only at hsel hsty hsb hov hpn
        subst hsel hsty hsb hov hpn
        simp [clearSelectedStyle, List.set_set]
      rw [handleDistrictClickState_of_some data s i f hfi]
      exact hmain _ rfl rfl rfl rfl rfl rfl
  · cases hst : selectTarget data kucode with
    | none =>
      rw [selectDistrictByCodeState_of_none data s kucode hst,
          selectDistrictByCodeState_of_none data s kucode hst]
    | some t =>
      obtain ⟨i2, f2⟩ := t
      have hmain : ∀ s2 : AppState, s2.selectedLayer = some i2 →
          selectDistrictByCodeState data s2 kucode =
            { s2 with
              styles := s2.styles.set i2 LayerStyle.selectedHighlight,
              selectedLayer := some i2,
              viewport := Viewport.districtFit i2,
              sidebarOpen := true,
              overlayVisible := true,
              panel := some (showDistrictInfoModel data.candidates f2.ken f2.ku f2.kucode) } := by
        intro s2 hsel
        rw [selectDistrictByCodeState_of_some data s2 kucode i2 f2 hst]
        simp [hsel]
      rw [selectDistrictByCodeState_of_some data s kucode i2 f2 hst]
      rw [hmain _ rfl]
      simp [List.set_set]

/-! ## C6 -/

/-- C6: after any interaction sequence, clicking district A and then a
different district B leaves B carrying the selected highlight and A
restored to its base style; moreover in every reachable state at most
one layer carries the selected highlight (any two highlighted indices
coincide). -/
theorem selection_highlight_exclusive (data : AppData) (ops : List Op) (i j : Nat)
    (hij : i ≠ j) (hi : i < data.features.length) (hj : j < data.features.length) :
    ((handleDistrictClickState data
        (handleDistrictClickState data (runOps data (initState data) ops) i) j).styles[j]?
          = some LayerStyle.selectedHighlight
      ∧ (handleDistrictClickState data
          (handleDistrictClickState data (runOps data (initState data) ops) i) j).styles[i]?
          = some LayerStyle.base)
    ∧ (∀ j1 j2 : Nat,
        (runOps data (initState data) ops).styles[j1]? = some LayerStyle.selectedHighlight →
        (runOps data (initState data) ops).styles[j2]? = some LayerStyle.selectedHighlight →
        j1 = j2) := by
  constructor
  · obtain ⟨fi, hfi⟩ : ∃ g, data.features[i]? = some g :=
      ⟨_, List.getElem?_eq_getElem hi⟩
    obtain ⟨fj, hfj⟩ : ∃ g, data.features[j]? = some g :=
      ⟨_, List.getElem?_eq_getElem hj⟩
    have hlen : (runOps data (initState data) ops).styles.length
        = data.features.length := by
      rw [runOps_styles_length]
      simp [initState]
    rw [handleDistrictClickState_of_some data (runOps data (initState data) ops) i fi hfi]
    rw [handleDistrictClickState_of_some data _ j fj hfj]
    have hsty :
        ({ clickBase data (runOps data (initState data) ops) fi with
            styles := (clearSelectedStyle
              (clickBase data (runOps data (initState data) ops) fi).selectedLayer
              (clickBase data (runOps data (initState data) ops) fi).styles).set i
              LayerStyle.selectedHighlight,
            selectedLayer := some i,
            sidebarOpen := true,
            overlayVisible := true,
            panel := some (showDistrictInfoModel data.candidates fi.ken fi.ku fi.kucode)
          } : AppState).styles
        = (clearSelectedStyle
            (clickBase data (runOps data (initState data) ops) fi).selectedLayer
            (clickBase data (runOps data (initState data) ops) fi).styles).set i
            LayerStyle.selectedHighlight := rfl
    set sA := { clickBase data (runOps data (initState data) ops) fi with
            styles := (clearSelectedStyle
              (clickBase data (runOps data (initState data) ops) fi).selectedLayer
              (clickBase data (runOps data (initState data) ops) fi).styles).set i
              LayerStyle.selectedHighlight,
            selectedLayer := some i,
            sidebarOpen := true,
            overlayVisible := true,
            panel := some (showDistrictInfoModel data.candidates fi.ken fi.ku fi.kucode)
          } with hsA
    have hselA : sA.selectedLayer = some i := rfl
    have hstyA : sA.styles.length = data.features.length := by
      rw [hsty, List.length_set, clearSelectedStyle_length, clickBase_styles, hlen]
    show ((clearSelectedStyle (clickBase data sA fj).selectedLayer
        (clickBase data sA fj).styles).set j LayerStyle.selectedHighlight)[j]?
          = some LayerStyle.selectedHighlight
      ∧ ((clearSelectedStyle (clickBase data sA fj).selectedLayer
        (clickBase data sA fj).styles).set j LayerStyle.selectedHighlight)[i]?
          = some LayerStyle.base
    rw [clickBase_styles data sA fj, clickBase_selectedLayer data sA fj, hselA]
    have hlen2 : (clearSelectedStyle (some i) sA.styles).length
        = data.features.length := by
      rw [clearSelectedStyle_length, hstyA]
    constructor
    · rw [set_getElem?, if_pos ⟨rfl, by rw [hlen2]; exact hj⟩]
    · rw [set_getElem?, if_neg (by intro hcon; exact hij (hcon.1.symm))]
      show (sA.styles.set i LayerStyle.base)[i]? = some LayerStyle.base
      rw [set_getElem?, if_pos ⟨rfl, by rw [hstyA]; exact hi⟩]
  · intro j1 j2 h1 h2
    have hinv := selectionStyleInv_runOps data ops (initState data)
      (selectionStyleInv_initState data)
    have e1 := hinv j1 h1
    have e2 := hinv j2 h2
    rw [e1] at e2
    injection e2

/-- Witness for the C6 theorem on the concrete two-district collection. -/
theorem selection_highlight_exclusive_witness :
    (handleDistrictClickState sampleData2
        (handleDistrictClickState sampleData2 (runOps sampleData2 (initState sampleData2) []) 0)
        1).styles[1]?
      = some LayerStyle.selectedHighlight
    ∧ (handleDistrictClickState sampleData2
        (handleDistrictClickState sampleData2 (runOps sampleData2 (initState sampleData2) []) 0)
        1).styles[0]?
      = some LayerStyle.base :=
  (selection_highlight_exclusive sampleData2 [] 0 1 (by decide) (by decide) (by decide)).1

/-! ## C8 -/

/-- C8: from every reachable state, the reset control runs resetView,
whose end state is idle: whole-country viewport, no zoomed prefecture,
no selected layer, no layer carrying the selected highlight, sidebar
and overlay closed, prefecture dropdown value cleared, district
dropdown emptied and disabled. -/
theorem reset_yields_idle_state (data : AppData) (ops : List Op) :
    stepState data (runOps data (initState data) ops) Op.resetButton
        = resetViewState (runOps data (initState data) ops)
    ∧ (resetViewState (runOps data (initState data) ops)).viewport = Viewport.home
    ∧ (resetViewState (runOps data (initState data) ops)).currentPrefecture = none
    ∧ (resetViewState (runOps data (initState data) ops)).selectedLayer = none
    ∧ (∀ j : Nat, (resetViewState (runOps data (initState data) ops)).styles[j]?
        ≠ some LayerStyle.selectedHighlight)
    ∧ (resetViewState (runOps data (initState data) ops)).sidebarOpen = false
    ∧ (resetViewState (runOps data (initState data) ops)).overlayVisible = false
    ∧ (resetViewState (runOps data (initState data) ops)).prefSelectValue = ""
    ∧ (resetViewState (runOps data (initState data) ops)).districtOptions = []
    ∧ (resetViewState (runOps data (initState data) ops)).districtDisabled = true := by
  refine ⟨rfl, rfl, rfl, rfl, ?_, rfl, rfl, rfl, rfl, rfl⟩
  intro j
  have hinv := selectionStyleInv_runOps data ops (initState data)
    (selectionStyleInv_initState data)
  exact clear_no_highlight (runOps data (initState data) ops).styles
    (runOps data (initState data) ops).selectedLayer hinv j

/-- Witness for the C8 theorem after a concrete click. -/
theorem reset_yields_idle_state_witness :
    (resetViewState (runOps sampleData13 (initState sampleData13) [Op.click 0])).viewport
      = Viewport.home
    ∧ (resetViewState (runOps sampleData13 (initState sampleData13) [Op.click 0])).currentPrefecture
      = none
    ∧ (resetViewState (runOps sampleData13 (initState sampleData13) [Op.click 0])).selectedLayer
      = none
    ∧ ¬((resetViewState (runOps sampleData13 (initState sampleData13) [Op.click 0])).styles[0]?
      = some LayerStyle.selectedHighlight)
    ∧ (resetViewState (runOps sampleData13 (initState sampleData13) [Op.click 0])).sidebarOpen
      = false :=
  ⟨(reset_yields_idle_state sampleData13 [Op.click 0]).2.1,
   (reset_yields_idle_state sampleData13 [Op.click 0]).2.2.1,
   (reset_yields_idle_state sampleData13 [Op.click 0]).2.2.2.1,
   (reset_yields_idle_state sampleData13 [Op.click 0]).2.2.2.2.1 0,
   (reset_yields_idle_state sampleData13 [Op.click 0]).2.2.2.2.2.1⟩

/-! ## C9 -/

theorem boundsLE_refl (a : LatLngBounds) : boundsLE a a :=
  ⟨le_refl _, le_refl _, le_refl _, le_refl _⟩

theorem boundsLE_trans {a b c : LatLngBounds} (h1 : boundsLE a b) (h2 : boundsLE b c) :
    boundsLE a c :=
  ⟨le_trans h2.1 h1.1, le_trans h1.2.1 h2.2.1, le_trans h2.2.2.1 h1.2.2.1,
   le_trans h1.2.2.2 h2.2.2.2⟩

theorem containPoint_mono {a b : LatLngBounds} {p : Int × Int}
    (h : boundsLE a b) (hp : boundsContainPoint a p) : boundsContainPoint b p :=
  ⟨le_trans h.1 hp.1, le_trans hp.2.1 h.2.1, le_trans h.2.2.1 hp.2.2.1,
   le_trans hp.2.2.2 h.2.2.2⟩

theorem extendPoint_contains (acc : Option LatLngBounds) (p : Int × Int) :
    ∃ c, extendPoint acc p = some c ∧ boundsContainPoint c p := by
  cases acc with
  | none => exact ⟨_, rfl, le_refl _, le_refl _, le_refl _, le_refl _⟩
  | some a =>
    exact ⟨_, rfl, min_le_right _ _, le_max_right _ _, min_le_right _ _, le_max_right _ _⟩

theorem extendPoint_mono (a : LatLngBounds) (p : Int × Int) :
    ∃ c, extendPoint (some a) p = some c ∧ boundsLE a c :=
  ⟨_, rfl, min_le_left _ _, le_max_left _ _, min_le_left _ _, le_max_left _ _⟩

theorem foldl_extendPoint_mono (l : List (Int × Int)) (a : LatLngBounds) :
    ∃ b, l.foldl extendPoint (some a) = some b ∧ boundsLE a b := by
  induction l generalizing a with
  | nil => exact ⟨a, rfl, boundsLE_refl a⟩
  | cons p ps ih =>
    rw [List.foldl_cons]
    obtain ⟨c, hc, hac⟩ := extendPoint_mono a p
    rw [hc]
    obtain ⟨b, hb, hcb⟩ := ih c
    exact ⟨b, hb, boundsLE_trans hac hcb⟩

theorem foldl_extendPoint_contains (p : Int × Int) (l : List (Int × Int)) :
    ∀ acc : Option LatLngBounds, p ∈ l →
      ∃ b, l.foldl extendPoint acc = some b ∧ boundsContainPoint b p := by
  induction l with
  | nil =>
    intro acc hp
    cases hp
  | cons q qs ih =>
    intro acc hp
    rw [List.foldl_cons]
    rcases List.mem_cons.mp hp with h | h
    · subst h
      obtain ⟨c, hc, hcp⟩ := extendPoint_contains acc p
      rw [hc]
      obtain ⟨b, hb, hcb⟩ := foldl_extendPoint_mono qs c
      exact ⟨b, hb, containPoint_mono hcb hcp⟩
    · exact ih (extendPoint acc q) h

theorem featureBounds_contains (f : Feature) (p : Int × Int) (hp : p ∈ f.geom) :
    ∃ b, featureBounds f = some b ∧ boundsContainPoint b p :=
  foldl_extendPoint_contains p f.geom none hp

theorem extendBounds_some_right (acc : Option LatLngBounds) (b : LatLngBounds) :
    ∃ c, extendBounds acc (some b) = some c ∧ boundsLE b c := by
  cases acc with
  | none => exact ⟨b, rfl, boundsLE_refl b⟩
  | some a =>
    exact ⟨_, rfl, min_le_right _ _, le_max_right _ _, min_le_right _ _, le_max_right _ _⟩

theorem extendBounds_mono_left (a : LatLngBounds) (fb : Option LatLngBounds) :
    ∃ c, extendBounds (some a) fb = some c ∧ boundsLE a c := by
  cases fb with
  | none => exact ⟨a, rfl, boundsLE_refl a⟩
  | some b =>
    exact ⟨_, rfl, min_le_left _ _, le_max_left _ _, min_le_left _ _, le_max_left _ _⟩

theorem foldl_groupStep_mono (fs : List Feature) (a : LatLngBounds) :
    ∃ b, fs.foldl (fun acc f => extendBounds acc (featureBounds f)) (some a) = some b
      ∧ boundsLE a b := by
  induction fs generalizing a with
  | nil => exact ⟨a, rfl, boundsLE_refl a⟩
  | cons g gs ih =>
    rw [List.foldl_cons]
    obtain ⟨c, hc, hac⟩ := extendBounds_mono_left a (featureBounds g)
    rw [hc]
    obtain ⟨b, hb, hcb⟩ := ih c
    exact ⟨b, hb, boundsLE_trans hac hcb⟩

theorem foldl_group_contains (f : Feature) (p : Int × Int) (hp : p ∈ f.geom)
    (fs : List Feature) :
    ∀ acc : Option LatLngBounds, f ∈ fs →
      ∃ b, fs.foldl (fun acc g => extendBounds acc (featureBounds g)) acc = some b
        ∧ boundsContainPoint b p := by
  induction fs with
  | nil =>
    intro acc hf
    cases hf
  | cons g gs ih =>
    intro acc hf
    rw [List.foldl_cons]
    rcases List.mem_cons.mp hf with h | h
    · subst h
      obtain ⟨bf, hbf, hbfp⟩ := featureBounds_contains f p hp
      rw [hbf]
      obtain ⟨c, hc, hbc⟩ := extendBounds_some_right acc bf
      rw [hc]
      obtain ⟨b, hb, hcb⟩ := foldl_groupStep_mono gs c
      exact ⟨b, hb, containPoint_mono (boundsLE_trans hbc hcb) hbfp⟩
    · exact ih (extendBounds acc (featureBounds g)) h

theorem groupBounds_contains (f : Feature) (p : Int × Int) (hp : p ∈ f.geom)
    (fs : List Feature) (hf : f ∈ fs) :
    ∃ b, groupBounds fs = some b ∧ boundsContainPoint b p :=
  foldl_group_contains f p hp fs none hf

theorem mem_dedupKeys_aux (x : String) (l : List String) :
    ∀ acc : List String, x ∈ acc ∨ x ∈ l →
      x ∈ l.foldl (fun acc k => if acc.contains k then acc else acc ++ [k]) acc := by
  induction l with
  | nil =>
    intro acc h
    rcases h with h | h
    · exact h
    · cases h
  | cons k ks ih =>
    intro acc h
    rw [List.foldl_cons]
    apply ih
    by_cases hc : acc.contains k
    · rw [if_pos hc]
      rcases h with h | h
      · exact Or.inl h
      · rcases List.mem_cons.mp h with h | h
        · subst h
          exact Or.inl (List.elem_iff.mp hc)
        · exact Or.inr h
    · rw [if_neg hc]
      rcases h with h | h
      · exact Or.inl (List.mem_append_left _ h)
      · rcases List.mem_cons.mp h with h | h
        · subst h
          exact Or.inl (List.mem_append_right _ (List.mem_singleton.mpr rfl))
        · exact Or.inr h

theorem mem_dedupKeys {x : String} {l : List String} (h : x ∈ l) : x ∈ dedupKeys l :=
  mem_dedupKeys_aux x l [] (Or.inr h)

theorem lookupBounds_map (g : String → Option LatLngBounds) (keys : List String)
    (k : String) (hk : k ∈ keys) :
    lookupBounds (keys.map (fun x => (x, g x))) k = some (g k) := by
  induction keys with
  | nil => cases hk
  | cons a as ih =>
    by_cases hak : a = k
    · subst hak
      unfold lookupBounds
      rw [List.map_cons, List.find?_cons_of_pos _ (by simp)]
      rfl
    · rcases List.mem_cons.mp hk with h | h
      · exact absurd h.symm hak
      · unfold lookupBounds
        rw [List.map_cons, List.find?_cons_of_neg _ (by simp [hak])]
        exact ih h

theorem calculateBounds_pref_lookup (features : List Feature) (f : Feature)
    (hf : f ∈ features) :
    lookupBounds (calculateBounds features).1 (jsKey f.ken)
      = some (groupBounds (features.filter (fun g => jsKey g.ken == jsKey f.ken))) := by
  show lookupBounds ((dedupKeys (features.map (fun g => jsKey g.ken))).map
      (fun k => (k, groupBounds (features.filter (fun g => jsKey g.ken == k)))))
      (jsKey f.ken)
    = some (groupBounds (features.filter (fun g => jsKey g.ken == jsKey f.ken)))
  exact lookupBounds_map
    (fun k => groupBounds (features.filter (fun g => jsKey g.ken == k)))
    (dedupKeys (features.map (fun g => jsKey g.ken)))
    (jsKey f.ken)
    (mem_dedupKeys (List.mem_map.mpr ⟨f, hf, rfl⟩))

theorem calculateBounds_district_lookup (features : List Feature) (f : Feature)
    (hf : f ∈ features) :
    lookupBounds (calculateBounds features).2 f.kucode
      = some (groupBounds (features.filter (fun g => g.kucode == f.kucode))) := by
  show lookupBounds ((dedupKeys (features.map (fun g => g.kucode))).map
      (fun k => (k, groupBounds (features.filter (fun g => g.kucode == k)))))
      f.kucode
    = some (groupBounds (features.filter (fun g => g.kucode == f.kucode)))
  exact lookupBounds_map
    (fun k => groupBounds (features.filter (fun g => g.kucode == k)))
    (dedupKeys (features.map (fun g => g.kucode)))
    f.kucode
    (mem_dedupKeys (List.mem_map.mpr ⟨f, hf, rfl⟩))

/-- C9: for any two features sharing a prefecture key, the computed
prefecture bounds entry for that key exists and contains every vertex
of both features; the same holds for the district bounds table per
district code; and the empty feature collection produces empty bounds
tables rather than an error. -/
theorem calculateBounds_group_containment :
    (∀ (features : List Feature) (key : String) (f1 f2 : Feature) (p : Int × Int),
        f1 ∈ features → f2 ∈ features → jsKey f1.ken = key → jsKey f2.ken = key →
        p ∈ f1.geom ∨ p ∈ f2.geom →
        ∃ b, lookupBounds (calculateBounds features).1 key = some (some b)
          ∧ boundsContainPoint b p)
    ∧ (∀ (features : List Feature) (key : String) (f1 f2 : Feature) (p : Int × Int),
        f1 ∈ features → f2 ∈ features → f1.kucode = key → f2.kucode = key →
        p ∈ f1.geom ∨ p ∈ f2.geom →
        ∃ b, lookupBounds (calculateBounds features).2 key = some (some b)
          ∧ boundsContainPoint b p)
    ∧ calculateBounds [] = ([], []) := by
  refine ⟨?_, ?_, rfl⟩
  · intro features key f1 f2 p h1 h2 hk1 hk2 hp
    subst hk1
    rw [calculateBounds_pref_lookup features f1 h1]
    rcases hp with hp | hp
    · obtain ⟨b, hb, hbp⟩ := groupBounds_contains f1 p hp
        (features.filter (fun g => jsKey g.ken == jsKey f1.ken))
        (List.mem_filter.mpr ⟨h1, by simp⟩)
      exact ⟨b, by rw [hb], hbp⟩
    · obtain ⟨b, hb, hbp⟩ := groupBounds_contains f2 p hp
        (features.filter (fun g => jsKey g.ken == jsKey f1.ken))
        (List.mem_filter.mpr ⟨h2, by simp [hk2]⟩)
      exact ⟨b, by rw [hb], hbp⟩
  · intro features key f1 f2 p h1 h2 hk1 hk2 hp
    subst hk1
    rw [calculateBounds_district_lookup features f1 h1]
    rcases hp with hp | hp
    · obtain ⟨b, hb, hbp⟩ := groupBounds_contains f1 p hp
        (features.filter (fun g => g.kucode == f1.kucode))
        (List.mem_filter.mpr ⟨h1, by simp⟩)
      exact ⟨b, by rw [hb], hbp⟩
    · obtain ⟨b, hb, hbp⟩ := groupBounds_contains f2 p hp
        (features.filter (fun g => g.kucode == f1.kucode))
        (List.mem_filter.mpr ⟨h2, by simp [hk2]⟩)
      exact ⟨b, by rw [hb], hbp⟩

/-- Witness for the C9 theorem: a two-feature prefecture group whose
computed bounds contain the second feature vertex. -/
theorem calculateBounds_group_containment_witness :
    ∃ b, lookupBounds (calculateBounds
        [{ ken := JSVal.num 1, ku := 1, kucode := "101", geom := [(0, 0), (2, 3)] },
         { ken := JSVal.num 1, ku := 2, kucode := "102", geom := [(5, 1)] }]).1 "1"
      = some (some b) ∧ boundsContainPoint b (5, 1) :=
  calculateBounds_group_containment.1
    [{ ken := JSVal.num 1, ku := 1, kucode := "101", geom := [(0, 0), (2, 3)] },
     { ken := JSVal.num 1, ku := 2, kucode := "102", geom := [(5, 1)] }]
    "1"
    { ken := JSVal.num 1, ku := 1, kucode := "101", geom := [(0, 0), (2, 3)] }
    { ken := JSVal.num 1, ku := 2, kucode := "102", geom := [(5, 1)] }
    (5, 1)
    (by decide) (by decide) (by decide) (by decide) (Or.inr (by decide))

end ElectionMap
